import Mathlib

/-!
# `web/src/apis/sql_database_api.js`: the `databaseApi` client

A shallow embedding of the nine entry points of `databaseApi` and of the
transport they import from `./base`.

* A promise is modelled by its settlement: a function of the world state
  (server, network, whatever the transport touches) giving the outcome, a
  value or an error, and the next world state.
* The four helpers `apiAdminGet`, `apiAdminPost`, `apiAdminPut` and
  `apiAdminDelete` are imported by the module and are not part of it: they are
  a parameter, the record `Transport`.
* `Transport.traced` wraps a transport so that every call of one of its four
  helpers is appended to a log, which makes "issues exactly one request"
  observable for an arbitrary transport.
* Identifiers are strings (the data model's `DatabaseIdentifier`); a template
  literal is string concatenation.  A call with one argument has no body
  (`none`); a call with two arguments passes the second one as it is (`some`).
-/

namespace SqlDatabaseApi

/-! ## Data model -/

/-- The HTTP verb, one per transport helper. -/
inductive Method where
  | GET
  | POST
  | PUT
  | DELETE
  deriving DecidableEq, Repr

/-- One call of a transport helper: which helper, its path, its optional body. -/
structure Request (β : Type) where
  method : Method
  path : String
  body : Option β
  deriving DecidableEq, Repr

/-- A deferred result: on a world state it settles with a value or with an
error, and leaves the next world state. -/
abbrev Promise (σ ε α : Type) : Type := σ → Except ε α × σ

/-- The four helpers imported from `./base`, each given a path and an optional
body. -/
structure Transport (σ β ε α : Type) where
  apiAdminGet : String → Option β → Promise σ ε α
  apiAdminPost : String → Option β → Promise σ ε α
  apiAdminPut : String → Option β → Promise σ ε α
  apiAdminDelete : String → Option β → Promise σ ε α

/-- Modelled from the spec: the error taxonomy of the transport collaborator
(`./base`), which classifies every error; the module itself names none. -/
inductive TransportError where
  | NetworkFailure
  | ServerError (status : Nat) (message : String)
  | SerializationFailure
  deriving DecidableEq, Repr

/-- The transport seen as one function of the request: the helper of the
request's verb, applied to its path and body. -/
def Transport.send {σ β ε α : Type} (t : Transport σ β ε α) (r : Request β) : Promise σ ε α :=
  match r.method with
  | .GET => t.apiAdminGet r.path r.body
  | .POST => t.apiAdminPost r.path r.body
  | .PUT => t.apiAdminPut r.path r.body
  | .DELETE => t.apiAdminDelete r.path r.body

/-- One traced helper: append the request to the log, then do what the helper
does. -/
def traceCall {σ β ε α : Type} (m : Method) (f : String → Option β → Promise σ ε α)
    (path : String) (body : Option β) : Promise (σ × List (Request β)) ε α :=
  fun w => ((f path body w.1).1, ((f path body w.1).2, w.2 ++ [⟨m, path, body⟩]))

/-- The transport `t` with a log of every helper call made through it. -/
def Transport.traced {σ β ε α : Type} (t : Transport σ β ε α) :
    Transport (σ × List (Request β)) β ε α where
  apiAdminGet := traceCall .GET t.apiAdminGet
  apiAdminPost := traceCall .POST t.apiAdminPost
  apiAdminPut := traceCall .PUT t.apiAdminPut
  apiAdminDelete := traceCall .DELETE t.apiAdminDelete

/-- Source form `async (...) => { return p }`: the promise of the async function is
resolved with `p`, so it fulfils with the value of `p` or rejects with the
error of `p`. -/
def asyncReturn {σ ε α : Type} (p : Promise σ ε α) : Promise σ ε α :=
  fun s =>
    match p s with
    | (.ok v, s') => (.ok v, s')
    | (.error e, s') => (.error e, s')

/-! ## The entry points of `databaseApi` -/

namespace databaseApi

variable {σ β ε α : Type}

/-- Source: `getDatabases: async () => apiAdminGet('/api/sql_database/databases')` -/
def getDatabases (t : Transport σ β ε α) : Promise σ ε α :=
  asyncReturn (t.apiAdminGet "/api/sql_database/databases" none)

/-- Source: `createChooseDatabaseTables: async (db_id, databaseData) => apiAdminPost(..., databaseData)` -/
def createChooseDatabaseTables (t : Transport σ β ε α) (db_id : String) (databaseData : β) :
    Promise σ ε α :=
  asyncReturn
    (t.apiAdminPost ("/api/sql_database/database/" ++ db_id ++ "/tables/choose") (some databaseData))

/-- Source: `createDatabase: async (databaseData) => apiAdminPost('/api/sql_database/database', databaseData)` -/
def createDatabase (t : Transport σ β ε α) (databaseData : β) : Promise σ ε α :=
  asyncReturn (t.apiAdminPost "/api/sql_database/database" (some databaseData))

/-- Source: `deleteConnection: async (dbId) => apiAdminDelete(...)` -/
def deleteConnection (t : Transport σ β ε α) (dbId : String) : Promise σ ε α :=
  asyncReturn (t.apiAdminDelete ("/api/sql_database/database/" ++ dbId) none)

/-- Source: `getDatabaseInfo: async (dbId) => apiAdminGet(...)` -/
def getDatabaseInfo (t : Transport σ β ε α) (dbId : String) : Promise σ ε α :=
  asyncReturn (t.apiAdminGet ("/api/sql_database/database/" ++ dbId) none)

/-- Source: `deleteDatabase: async (dbId) => apiAdminDelete(...)` -/
def deleteDatabase (t : Transport σ β ε α) (dbId : String) : Promise σ ε α :=
  asyncReturn (t.apiAdminDelete ("/api/sql_database/database/" ++ dbId) none)

/-- Source: `updateDatabase: async (dbId, updateData) => apiAdminPut(..., updateData)` -/
def updateDatabase (t : Transport σ β ε α) (dbId : String) (updateData : β) : Promise σ ε α :=
  asyncReturn (t.apiAdminPut ("/api/sql_database/database/" ++ dbId) (some updateData))

/-- Source: `updateTables: async (dbId, tableInfo) => apiAdminPut(..., tableInfo)` -/
def updateTables (t : Transport σ β ε α) (dbId : String) (tableInfo : β) : Promise σ ε α :=
  asyncReturn (t.apiAdminPut ("/api/sql_database/database/" ++ dbId ++ "/tables") (some tableInfo))

/-- Source: `createGraph: async () => apiAdminPost('/api/sql_database/databases/neo4j')` -/
def createGraph (t : Transport σ β ε α) : Promise σ ε α :=
  asyncReturn (t.apiAdminPost "/api/sql_database/databases/neo4j" none)

end databaseApi

/-! ## Calls of the module as data -/

/-- The nine property names of the object `databaseApi`. -/
inductive EntryPoint where
  | getDatabases
  | createChooseDatabaseTables
  | createDatabase
  | deleteConnection
  | getDatabaseInfo
  | deleteDatabase
  | updateDatabase
  | updateTables
  | createGraph
  deriving DecidableEq, Repr

/-- An entry point together with its argument list. -/
inductive Call (β : Type) where
  | getDatabases
  | createChooseDatabaseTables (db_id : String) (databaseData : β)
  | createDatabase (databaseData : β)
  | deleteConnection (dbId : String)
  | getDatabaseInfo (dbId : String)
  | deleteDatabase (dbId : String)
  | updateDatabase (dbId : String) (updateData : β)
  | updateTables (dbId : String) (tableInfo : β)
  | createGraph
  deriving DecidableEq, Repr

/-- Evaluate `databaseApi.<entry point>(<arguments>)` over the transport `t`. -/
def Call.run {σ β ε α : Type} (t : Transport σ β ε α) : Call β → Promise σ ε α
  | .getDatabases => databaseApi.getDatabases t
  | .createChooseDatabaseTables db_id databaseData =>
      databaseApi.createChooseDatabaseTables t db_id databaseData
  | .createDatabase databaseData => databaseApi.createDatabase t databaseData
  | .deleteConnection dbId => databaseApi.deleteConnection t dbId
  | .getDatabaseInfo dbId => databaseApi.getDatabaseInfo t dbId
  | .deleteDatabase dbId => databaseApi.deleteDatabase t dbId
  | .updateDatabase dbId updateData => databaseApi.updateDatabase t dbId updateData
  | .updateTables dbId tableInfo => databaseApi.updateTables t dbId tableInfo
  | .createGraph => databaseApi.createGraph t

/-- The entry point a call names. -/
def Call.entry {β : Type} : Call β → EntryPoint
  | .getDatabases => .getDatabases
  | .createChooseDatabaseTables _ _ => .createChooseDatabaseTables
  | .createDatabase _ => .createDatabase
  | .deleteConnection _ => .deleteConnection
  | .getDatabaseInfo _ => .getDatabaseInfo
  | .deleteDatabase _ => .deleteDatabase
  | .updateDatabase _ _ => .updateDatabase
  | .updateTables _ _ => .updateTables
  | .createGraph => .createGraph

/-- The identifier argument of a call, when the entry point takes one. -/
def Call.ident {β : Type} : Call β → Option String
  | .getDatabases => none
  | .createChooseDatabaseTables db_id _ => some db_id
  | .createDatabase _ => none
  | .deleteConnection dbId => some dbId
  | .getDatabaseInfo dbId => some dbId
  | .deleteDatabase dbId => some dbId
  | .updateDatabase dbId _ => some dbId
  | .updateTables dbId _ => some dbId
  | .createGraph => none

/-- The logical action of an entry point: the two delete entry points are one
action, every other entry point is its own. -/
def EntryPoint.action : EntryPoint → EntryPoint
  | .deleteConnection => .deleteDatabase
  | e => e

/-- The identifier of the call, if it has one, contains no `/`. -/
def Call.SlashFree {β : Type} (c : Call β) : Prop :=
  ∀ x ∈ c.ident, '/' ∉ x.data

/-- The requests a call issues through the transport `t` from the world state
`s`: the log of the traced transport, started empty. -/
def Call.issued {σ β ε α : Type} (t : Transport σ β ε α) (c : Call β) (s : σ) :
    List (Request β) :=
  (c.run t.traced (s, [])).2.2

/-- The verb and the path of a request, the part a router sees. -/
def Request.route {β : Type} (r : Request β) : Method × String :=
  (r.method, r.path)

/-- The request of a call as the table of the module's nine rows gives it;
`Call.run_eq_send` proves the code issues this one. -/
def Call.request {β : Type} : Call β → Request β
  | .getDatabases => ⟨.GET, "/api/sql_database/databases", none⟩
  | .createChooseDatabaseTables db_id databaseData =>
      ⟨.POST, "/api/sql_database/database/" ++ db_id ++ "/tables/choose", some databaseData⟩
  | .createDatabase databaseData => ⟨.POST, "/api/sql_database/database", some databaseData⟩
  | .deleteConnection dbId => ⟨.DELETE, "/api/sql_database/database/" ++ dbId, none⟩
  | .getDatabaseInfo dbId => ⟨.GET, "/api/sql_database/database/" ++ dbId, none⟩
  | .deleteDatabase dbId => ⟨.DELETE, "/api/sql_database/database/" ++ dbId, none⟩
  | .updateDatabase dbId updateData =>
      ⟨.PUT, "/api/sql_database/database/" ++ dbId, some updateData⟩
  | .updateTables dbId tableInfo =>
      ⟨.PUT, "/api/sql_database/database/" ++ dbId ++ "/tables", some tableInfo⟩
  | .createGraph => ⟨.POST, "/api/sql_database/databases/neo4j", none⟩

/-! ## Two concrete transports, used to evaluate the module -/

/-- A transport that rejects every request with a network failure and counts
the requests it has seen. -/
def offline : Transport Nat String TransportError String where
  apiAdminGet := fun _ _ n => (.error .NetworkFailure, n + 1)
  apiAdminPost := fun _ _ n => (.error .NetworkFailure, n + 1)
  apiAdminPut := fun _ _ n => (.error .NetworkFailure, n + 1)
  apiAdminDelete := fun _ _ n => (.error .NetworkFailure, n + 1)

/-- A transport that resolves every request with its path and counts the
requests it has seen. -/
def echo : Transport Nat String TransportError String where
  apiAdminGet := fun path _ n => (.ok path, n + 1)
  apiAdminPost := fun path _ n => (.ok path, n + 1)
  apiAdminPut := fun path _ n => (.ok path, n + 1)
  apiAdminDelete := fun path _ n => (.ok path, n + 1)

/-! ## Lemmas on the embedding -/

section Lemmas

variable {σ β ε α : Type}

/-- The promise of `async () => { return p }` settles exactly as `p` does. -/
theorem asyncReturn_eq (p : Promise σ ε α) : asyncReturn p = p := by
  funext s
  unfold asyncReturn
  rcases h : p s with ⟨o, s'⟩
  cases o <;> rfl

/-- A traced helper call: the outcome and state of the helper, the log one
request longer. -/
theorem Transport.traced_send (t : Transport σ β ε α) (r : Request β) (s : σ)
    (log : List (Request β)) :
    t.traced.send r (s, log) = ((t.send r s).1, ((t.send r s).2, log ++ [r])) := by
  obtain ⟨m, path, body⟩ := r
  cases m <;> rfl

/-- Every entry point is one helper call: the one of `Call.request`. -/
theorem Call.run_eq_send (t : Transport σ β ε α) (c : Call β) : c.run t = t.send c.request := by
  cases c <;> simp only [Call.run, Call.request, Transport.send, asyncReturn_eq,
    databaseApi.getDatabases, databaseApi.createChooseDatabaseTables, databaseApi.createDatabase,
    databaseApi.deleteConnection, databaseApi.getDatabaseInfo, databaseApi.deleteDatabase,
    databaseApi.updateDatabase, databaseApi.updateTables, databaseApi.createGraph]

/-- The run of a call over the traced transport, from any state and log. -/
theorem Call.run_traced (t : Transport σ β ε α) (c : Call β) (s : σ) (log : List (Request β)) :
    c.run t.traced (s, log)
      = ((t.send c.request s).1, ((t.send c.request s).2, log ++ [c.request])) := by
  rw [Call.run_eq_send, Transport.traced_send]

/-- The log of a call started empty holds its one request. -/
theorem Call.issued_eq (t : Transport σ β ε α) (c : Call β) (s : σ) :
    c.issued t s = [c.request] := by
  simp [Call.issued, Call.run_traced]

/-- For identifiers without `/`, the verb and path of a call's request fix its
action and its identifier. -/
theorem Call.request_route_inj (c₁ c₂ : Call β) (h₁ : c₁.SlashFree) (h₂ : c₂.SlashFree)
    (h : c₁.request.route = c₂.request.route) :
    c₁.entry.action = c₂.entry.action ∧ c₁.ident = c₂.ident := by
  cases c₁ <;> cases c₂ <;>
    simp only [Call.request, Request.route, Prod.mk.injEq, reduceCtorEq, false_and, true_and,
      String.ext_iff, String.data_append] at h <;>
    simp [Call.SlashFree, Call.ident] at h₁ h₂ <;>
    simp [Call.entry, EntryPoint.action, Call.ident, String.ext_iff] <;>
    simp at h <;>
    first
      | exact h
      | (rw [h] at h₁; simp at h₁)
      | (rw [← h] at h₂; simp at h₂)

end Lemmas

/-! ## The claims -/

section Claims

variable {σ β ε α : Type}

/-- C1: for every identifier `dbId` and every transport, from every world state
and log, `getDatabaseInfo(dbId)` makes exactly one helper call, `apiAdminGet`
with the path `/api/sql_database` + `/database/` + `dbId` and no body; the log
is that one GET longer, so no POST, PUT or DELETE is issued; its outcome and
the next state are those of that call. -/
theorem getDatabaseInfo_issues_one_get (t : Transport σ β ε α) (dbId : String) (s : σ)
    (log : List (Request β)) :
    databaseApi.getDatabaseInfo t.traced dbId (s, log)
        = ((t.apiAdminGet ("/api/sql_database" ++ "/database/" ++ dbId) none s).1,
           ((t.apiAdminGet ("/api/sql_database" ++ "/database/" ++ dbId) none s).2,
            log ++ [⟨.GET, "/api/sql_database" ++ "/database/" ++ dbId, none⟩]))
      ∧ databaseApi.getDatabaseInfo t dbId s
        = t.apiAdminGet ("/api/sql_database" ++ "/database/" ++ dbId) none s
      ∧ ∀ r ∈ Call.issued t (.getDatabaseInfo dbId) s,
          r.method ≠ .POST ∧ r.method ≠ .PUT ∧ r.method ≠ .DELETE := by
  have hp : ("/api/sql_database" ++ "/database/" : String) = "/api/sql_database/database/" := rfl
  rw [hp]
  refine ⟨Call.run_traced t (.getDatabaseInfo dbId) s log,
    congrFun (Call.run_eq_send t (.getDatabaseInfo dbId)) s, ?_⟩
  intro r hr
  rw [Call.issued_eq, List.mem_singleton] at hr
  subst hr
  simp [Call.request]

/-- Over the transport `echo`, `getDatabaseInfo("db1")` resolves with the
path the transport saw, and the one request it issues is no POST, PUT or
DELETE. -/
theorem getDatabaseInfo_issues_one_get_witness :
    databaseApi.getDatabaseInfo echo "db1" 0 = (Except.ok "/api/sql_database/database/db1", 1)
      ∧ (⟨.GET, "/api/sql_database/database/db1", none⟩ : Request String).method ≠ .POST :=
  ⟨(getDatabaseInfo_issues_one_get echo "db1" 0 []).2.1,
    ((getDatabaseInfo_issues_one_get echo "db1" 0 []).2.2
      ⟨.GET, "/api/sql_database/database/db1", none⟩ (by decide)).1⟩

/-- C2: for every payload and every transport, from every world state and log,
`createDatabase(payload)` makes exactly one helper call, `apiAdminPost` with the
path `/api/sql_database/database` and the payload itself as body; its outcome
and the next state are those of that call. -/
theorem createDatabase_issues_one_post (t : Transport σ β ε α) (payload : β) (s : σ)
    (log : List (Request β)) :
    databaseApi.createDatabase t.traced payload (s, log)
        = ((t.apiAdminPost ("/api/sql_database" ++ "/database") (some payload) s).1,
           ((t.apiAdminPost ("/api/sql_database" ++ "/database") (some payload) s).2,
            log ++ [⟨.POST, "/api/sql_database/database", some payload⟩]))
      ∧ databaseApi.createDatabase t payload s
        = t.apiAdminPost "/api/sql_database/database" (some payload) s := by
  have hp : ("/api/sql_database" ++ "/database" : String) = "/api/sql_database/database" := rfl
  rw [hp]
  exact ⟨Call.run_traced t (.createDatabase payload) s log,
    congrFun (Call.run_eq_send t (.createDatabase payload)) s⟩

/-- C3: for every identifier and every transport, `deleteDatabase(dbId)` and
`deleteConnection(dbId)` are the same function of the transport and the world
state; over the traced transport both make exactly one helper call,
`apiAdminDelete` with the path `/api/sql_database/database/` + `dbId` and no
body, and both return what the transport gives for that call. -/
theorem deleteDatabase_eq_deleteConnection (t : Transport σ β ε α) (dbId : String) (s : σ)
    (log : List (Request β)) :
    databaseApi.deleteDatabase t dbId = databaseApi.deleteConnection t dbId
      ∧ databaseApi.deleteDatabase t.traced dbId (s, log)
        = databaseApi.deleteConnection t.traced dbId (s, log)
      ∧ databaseApi.deleteDatabase t.traced dbId (s, log)
        = ((t.apiAdminDelete ("/api/sql_database/database/" ++ dbId) none s).1,
           ((t.apiAdminDelete ("/api/sql_database/database/" ++ dbId) none s).2,
            log ++ [⟨.DELETE, "/api/sql_database/database/" ++ dbId, none⟩]))
      ∧ databaseApi.deleteConnection t.traced dbId (s, log)
        = ((t.apiAdminDelete ("/api/sql_database/database/" ++ dbId) none s).1,
           ((t.apiAdminDelete ("/api/sql_database/database/" ++ dbId) none s).2,
            log ++ [⟨.DELETE, "/api/sql_database/database/" ++ dbId, none⟩]))
      ∧ databaseApi.deleteDatabase t dbId s
        = t.apiAdminDelete ("/api/sql_database/database/" ++ dbId) none s
      ∧ databaseApi.deleteConnection t dbId s
        = t.apiAdminDelete ("/api/sql_database/database/" ++ dbId) none s :=
  ⟨rfl, rfl, Call.run_traced t (.deleteDatabase dbId) s log,
    Call.run_traced t (.deleteConnection dbId) s log,
    congrFun (Call.run_eq_send t (.deleteDatabase dbId)) s,
    congrFun (Call.run_eq_send t (.deleteConnection dbId)) s⟩

/-- C4: for every identifier `db_id` and selection `sel`, over every transport,
`createChooseDatabaseTables(db_id, sel)` makes one `apiAdminPost` call with the
path `/api/sql_database/database/` + `db_id` + `/tables/choose` and body `sel`,
`updateTables(db_id, sel)` makes one `apiAdminPut` call with the path
`/api/sql_database/database/` + `db_id` + `/tables` and body `sel`; the verbs
of the two issued requests differ and both paths begin with
`/api/sql_database/database/` + `db_id`. -/
theorem choose_posts_update_puts (t : Transport σ β ε α) (db_id : String) (sel : β) (s : σ)
    (log : List (Request β)) :
    databaseApi.createChooseDatabaseTables t.traced db_id sel (s, log)
        = ((t.apiAdminPost ("/api/sql_database/database/" ++ db_id ++ "/tables/choose")
              (some sel) s).1,
           ((t.apiAdminPost ("/api/sql_database/database/" ++ db_id ++ "/tables/choose")
              (some sel) s).2,
            log ++ [⟨.POST, "/api/sql_database/database/" ++ db_id ++ "/tables/choose",
              some sel⟩]))
      ∧ databaseApi.updateTables t.traced db_id sel (s, log)
        = ((t.apiAdminPut ("/api/sql_database/database/" ++ db_id ++ "/tables") (some sel) s).1,
           ((t.apiAdminPut ("/api/sql_database/database/" ++ db_id ++ "/tables") (some sel) s).2,
            log ++ [⟨.PUT, "/api/sql_database/database/" ++ db_id ++ "/tables", some sel⟩]))
      ∧ ∀ r₁ ∈ Call.issued t (.createChooseDatabaseTables db_id sel) s,
          ∀ r₂ ∈ Call.issued t (.updateTables db_id sel) s,
            r₁.method ≠ r₂.method
              ∧ (∃ rest, r₁.path = "/api/sql_database/database/" ++ db_id ++ rest)
              ∧ (∃ rest, r₂.path = "/api/sql_database/database/" ++ db_id ++ rest) := by
  refine ⟨Call.run_traced t (.createChooseDatabaseTables db_id sel) s log,
    Call.run_traced t (.updateTables db_id sel) s log, ?_⟩
  intro r₁ h₁ r₂ h₂
  rw [Call.issued_eq, List.mem_singleton] at h₁ h₂
  subst h₁ h₂
  exact ⟨by simp [Call.request], ⟨"/tables/choose", rfl⟩, ⟨"/tables", rfl⟩⟩

/-- Over the transport `echo`, the request of
`createChooseDatabaseTables("db1", "sel")` and the request of
`updateTables("db1", "sel")` have different verbs. -/
theorem choose_posts_update_puts_witness :
    (⟨.POST, "/api/sql_database/database/db1/tables/choose", some "sel"⟩ : Request String).method
      ≠ (⟨.PUT, "/api/sql_database/database/db1/tables", some "sel"⟩ : Request String).method :=
  ((choose_posts_update_puts echo "db1" "sel" 0 []).2.2
    ⟨.POST, "/api/sql_database/database/db1/tables/choose", some "sel"⟩ (by decide)
    ⟨.PUT, "/api/sql_database/database/db1/tables", some "sel"⟩ (by decide)).1

/-- C5: the entry point `createGraph` has no parameter but the transport; over every transport,
from every world state and every log of earlier calls, it makes exactly one
helper call, `apiAdminPost` with the fixed path
`/api/sql_database/databases/neo4j` and no body. -/
theorem createGraph_issues_one_post (t : Transport σ β ε α) (s : σ) (log : List (Request β)) :
    databaseApi.createGraph t.traced (s, log)
        = ((t.apiAdminPost "/api/sql_database/databases/neo4j" none s).1,
           ((t.apiAdminPost "/api/sql_database/databases/neo4j" none s).2,
            log ++ [⟨.POST, "/api/sql_database/databases/neo4j", none⟩]))
      ∧ databaseApi.createGraph t s = t.apiAdminPost "/api/sql_database/databases/neo4j" none s
      ∧ ("/api/sql_database/databases/neo4j" : String)
        = "/api/sql_database" ++ "/databases/" ++ "neo4j" :=
  ⟨Call.run_traced t .createGraph s log, congrFun (Call.run_eq_send t .createGraph) s, rfl⟩

/-- C8: for every identifier and update payload, over every transport,
`updateDatabase(dbId, data)` makes exactly one helper call, `apiAdminPut` with
the path `/api/sql_database/database/` + `dbId` and `data` itself as body; the
path is the one `getDatabaseInfo(dbId)` and `deleteDatabase(dbId)` issue. -/
theorem updateDatabase_issues_one_put (t : Transport σ β ε α) (dbId : String) (data : β) (s : σ)
    (log : List (Request β)) :
    databaseApi.updateDatabase t.traced dbId data (s, log)
        = ((t.apiAdminPut ("/api/sql_database/database/" ++ dbId) (some data) s).1,
           ((t.apiAdminPut ("/api/sql_database/database/" ++ dbId) (some data) s).2,
            log ++ [⟨.PUT, "/api/sql_database/database/" ++ dbId, some data⟩]))
      ∧ databaseApi.updateDatabase t dbId data s
        = t.apiAdminPut ("/api/sql_database/database/" ++ dbId) (some data) s
      ∧ (Call.issued t (.updateDatabase dbId data) s).map Request.path
        = (Call.issued t (.getDatabaseInfo dbId) s).map Request.path
      ∧ (Call.issued t (.updateDatabase dbId data) s).map Request.path
        = (Call.issued t (.deleteDatabase dbId) s).map Request.path := by
  refine ⟨Call.run_traced t (.updateDatabase dbId data) s log,
    congrFun (Call.run_eq_send t (.updateDatabase dbId data)) s, ?_, ?_⟩ <;>
  simp [Call.issued_eq, Call.request]

/-- C10: the identifier goes into the path as it is, so two different actions
can issue one and the same request: for every identifier `id₂` and body `b`,
over every transport, `updateDatabase(id₂ + "/tables", b)` and
`updateTables(id₂, b)` issue the same PUT with the same path and body, and run
identically, although the two entry points are different actions. -/
theorem updateDatabase_collides_with_updateTables (t : Transport σ β ε α) (id₂ : String) (b : β)
    (s : σ) (log : List (Request β)) :
    databaseApi.updateDatabase t.traced (id₂ ++ "/tables") b (s, log)
        = databaseApi.updateTables t.traced id₂ b (s, log)
      ∧ Call.issued t (.updateDatabase (id₂ ++ "/tables") b) s
        = [⟨.PUT, "/api/sql_database/database/" ++ id₂ ++ "/tables", some b⟩]
      ∧ Call.issued t (.updateTables id₂ b) s
        = [⟨.PUT, "/api/sql_database/database/" ++ id₂ ++ "/tables", some b⟩]
      ∧ (Call.updateDatabase (id₂ ++ "/tables") b).entry.action
        ≠ (Call.updateTables id₂ b).entry.action
      ∧ id₂ ++ "/tables" ≠ id₂ := by
  refine ⟨?_, ?_, ?_, ?_, ?_⟩
  · simp only [databaseApi.updateDatabase, databaseApi.updateTables, String.append_assoc]
  · simp [Call.issued_eq, Call.request, String.append_assoc]
  · simp [Call.issued_eq, Call.request]
  · simp [Call.entry, EntryPoint.action]
  · intro h
    have hl := congrArg String.length h
    simp [String.length_append] at hl
    exact absurd hl (by decide)

/-- C6: over every transport seen as a function of the request
(`Transport.send`), for every entry point with every argument list and every
error `e`: if the transport rejects the request the call issues with `e`, the
call's result is the rejection with that same `e`; in particular, if
`apiAdminGet` rejects `/api/sql_database/databases` with `e` (a network failure,
say), `getDatabases()` rejects with `e`. -/
theorem rejection_is_forwarded (t : Transport σ β ε α) (s : σ) (e : ε) :
    (∀ (c : Call β) (r : Request β), r ∈ c.issued t s →
        (t.send r s).1 = Except.error e → (c.run t s).1 = Except.error e)
      ∧ ((t.apiAdminGet "/api/sql_database/databases" none s).1 = Except.error e →
          (databaseApi.getDatabases t s).1 = Except.error e) := by
  constructor
  · intro c r hr hrej
    rw [Call.issued_eq, List.mem_singleton] at hr
    subst hr
    rw [Call.run_eq_send]
    exact hrej
  · intro hrej
    rw [databaseApi.getDatabases, asyncReturn_eq]
    exact hrej

/-- The transport `offline` rejects every request with a network failure, and
so do `getDatabases()` and `deleteDatabase("db1")` over it. -/
theorem rejection_is_forwarded_witness :
    (databaseApi.getDatabases offline 0).1 = Except.error TransportError.NetworkFailure
      ∧ (Call.run offline (Call.deleteDatabase "db1") 0).1
        = Except.error TransportError.NetworkFailure :=
  ⟨(rejection_is_forwarded offline 0 TransportError.NetworkFailure).2 rfl,
    (rejection_is_forwarded offline 0 TransportError.NetworkFailure).1
      (Call.deleteDatabase "db1") ⟨.DELETE, "/api/sql_database/database/db1", none⟩
      (by decide) rfl⟩

/-- C7: each of the nine entry points, with every argument list, over every
transport, from every world state and log, makes exactly one helper call (the
log grows by one request `r`, sent through the helper of its verb), and its
outcome and next state are those of that call, so a value `v` the transport
resolves with is the result, unchanged; `getDatabases()` issues one GET to
`/api/sql_database/databases` with no body. -/
theorem entry_point_is_one_call (t : Transport σ β ε α) (c : Call β) (s : σ)
    (log : List (Request β)) :
    (∃ r : Request β,
        c.run t.traced (s, log) = ((t.send r s).1, ((t.send r s).2, log ++ [r]))
          ∧ c.run t s = t.send r s
          ∧ ∀ v, (t.send r s).1 = Except.ok v → (c.run t s).1 = Except.ok v)
      ∧ databaseApi.getDatabases t.traced (s, log)
        = ((t.apiAdminGet "/api/sql_database/databases" none s).1,
           ((t.apiAdminGet "/api/sql_database/databases" none s).2,
            log ++ [⟨.GET, "/api/sql_database/databases", none⟩]))
      ∧ databaseApi.getDatabases t s = t.apiAdminGet "/api/sql_database/databases" none s := by
  refine ⟨⟨c.request, Call.run_traced t c s log, congrFun (Call.run_eq_send t c) s, ?_⟩,
    Call.run_traced t .getDatabases s log, congrFun (Call.run_eq_send t .getDatabases) s⟩
  intro v hv
  rw [Call.run_eq_send]
  exact hv

/-- Over the transport `echo`, `getDatabases()` appends one GET to an earlier
log and resolves with what the transport answers, the path. -/
theorem entry_point_is_one_call_witness :
    databaseApi.getDatabases echo.traced (0, [⟨.POST, "/api/sql_database/database", some "x"⟩])
        = (Except.ok "/api/sql_database/databases",
           (1, [⟨.POST, "/api/sql_database/database", some "x"⟩,
                ⟨.GET, "/api/sql_database/databases", none⟩]))
      ∧ databaseApi.getDatabases echo 0 = (Except.ok "/api/sql_database/databases", 1) :=
  ⟨(entry_point_is_one_call echo Call.getDatabases 0
      [⟨.POST, "/api/sql_database/database", some "x"⟩]).2.1,
    (entry_point_is_one_call echo Call.getDatabases 0 []).2.2⟩

/-- C9: for identifiers without `/`, over any transports and world states, two
calls that issue the same verbs and paths are the same action (the two delete
entry points being one action) with the same identifier; `getDatabaseInfo(id)`
never issues the verb and path of `getDatabases()`, and `updateDatabase(id₁, b)`
never issues the verb and path of `updateTables(id₂, b)`. -/
theorem route_determines_call (t₁ t₂ : Transport σ β ε α) (s₁ s₂ : σ) :
    (∀ c₁ c₂ : Call β, c₁.SlashFree → c₂.SlashFree →
        (c₁.issued t₁ s₁).map Request.route = (c₂.issued t₂ s₂).map Request.route →
        c₁.entry.action = c₂.entry.action ∧ c₁.ident = c₂.ident)
      ∧ (∀ id : String, '/' ∉ id.data →
          ((Call.getDatabaseInfo id : Call β).issued t₁ s₁).map Request.route
            ≠ ((Call.getDatabases : Call β).issued t₂ s₂).map Request.route)
      ∧ (∀ (id₁ id₂ : String) (b : β), '/' ∉ id₁.data → '/' ∉ id₂.data →
          ((Call.updateDatabase id₁ b).issued t₁ s₁).map Request.route
            ≠ ((Call.updateTables id₂ b).issued t₂ s₂).map Request.route) := by
  have main : ∀ c₁ c₂ : Call β, c₁.SlashFree → c₂.SlashFree →
      (c₁.issued t₁ s₁).map Request.route = (c₂.issued t₂ s₂).map Request.route →
      c₁.entry.action = c₂.entry.action ∧ c₁.ident = c₂.ident := by
    intro c₁ c₂ h₁ h₂ h
    simp only [Call.issued_eq, List.map_cons, List.map_nil, List.cons.injEq, and_true] at h
    exact Call.request_route_inj c₁ c₂ h₁ h₂ h
  refine ⟨main, ?_, ?_⟩
  · intro id hid h
    have := (main (.getDatabaseInfo id) .getDatabases
      (by simpa [Call.SlashFree, Call.ident] using hid) (by simp [Call.SlashFree, Call.ident]) h).1
    simp [Call.entry, EntryPoint.action] at this
  · intro id₁ id₂ b h₁ h₂ h
    have := (main (.updateDatabase id₁ b) (.updateTables id₂ b)
      (by simpa [Call.SlashFree, Call.ident] using h₁)
      (by simpa [Call.SlashFree, Call.ident] using h₂) h).1
    simp [Call.entry, EntryPoint.action] at this

/-- The calls `deleteConnection("db1")` over `offline` and `deleteDatabase("db1")`
over `echo` issue the same verb and path: they are one action on one
identifier. -/
theorem route_determines_call_witness :
    (Call.deleteConnection "db1" : Call String).entry.action
        = (Call.deleteDatabase "db1" : Call String).entry.action
      ∧ (Call.deleteConnection "db1" : Call String).ident
        = (Call.deleteDatabase "db1" : Call String).ident :=
  (route_determines_call offline echo 0 7).1 (Call.deleteConnection "db1")
    (Call.deleteDatabase "db1") (by simp [Call.SlashFree, Call.ident])
    (by simp [Call.SlashFree, Call.ident]) (by decide)

end Claims

end SqlDatabaseApi
